import Mathlib

/-!
Verification of the `sunk` Subsonic client (src/sunk.rs) against its
natural-language specification.

The development shallowly embeds the Rust source:

* `md5Hex` implements the MD5 digest (RFC 1321) over UTF-8 bytes, as the
  `md5` crate computes it and as `format with lowercase hex` prints it;
* `SunkAuth.as_uri` follows sunk.rs lines 38-71 (the salt drawn by
  `thread_rng` is modelled as a function from position to character);
* `Sunk.new`, `Sunk.build_url`, `Sunk.get` and `Sunk.try_binary` follow
  sunk.rs lines 75-243, with the HTTP transport modelled by passing the
  received status code and the JSON-decode result of the body as inputs;
* the `Api` version comparison, the error enum and `ApiError::try_from`
  live in api.rs / error.rs / query.rs, which are not part of the sources
  at hand; they are modelled from the spec where so marked.
-/

/-! ## MD5 (RFC 1321), as computed by the `md5` crate on a byte string -/

def M32 : Nat := 4294967296

def rotl32 (x n : Nat) : Nat :=
  (((x % M32) <<< n) ||| ((x % M32) >>> (32 - n))) % M32

def md5K : List Nat :=
  [0xd76aa478, 0xe8c7b756, 0x242070db, 0xc1bdceee,
   0xf57c0faf, 0x4787c62a, 0xa8304613, 0xfd469501,
   0x698098d8, 0x8b44f7af, 0xffff5bb1, 0x895cd7be,
   0x6b901122, 0xfd987193, 0xa679438e, 0x49b40821,
   0xf61e2562, 0xc040b340, 0x265e5a51, 0xe9b6c7aa,
   0xd62f105d, 0x02441453, 0xd8a1e681, 0xe7d3fbc8,
   0x21e1cde6, 0xc33707d6, 0xf4d50d87, 0x455a14ed,
   0xa9e3e905, 0xfcefa3f8, 0x676f02d9, 0x8d2a4c8a,
   0xfffa3942, 0x8771f681, 0x6d9d6122, 0xfde5380c,
   0xa4beea44, 0x4bdecfa9, 0xf6bb4b60, 0xbebfbc70,
   0x289b7ec6, 0xeaa127fa, 0xd4ef3085, 0x04881d05,
   0xd9d4d039, 0xe6db99e5, 0x1fa27cf8, 0xc4ac5665,
   0xf4292244, 0x432aff97, 0xab9423a7, 0xfc93a039,
   0x655b59c3, 0x8f0ccc92, 0xffeff47d, 0x85845dd1,
   0x6fa87e4f, 0xfe2ce6e0, 0xa3014314, 0x4e0811a1,
   0xf7537e82, 0xbd3af235, 0x2ad7d2bb, 0xeb86d391]

def md5S : List Nat :=
  [7, 12, 17, 22, 7, 12, 17, 22, 7, 12, 17, 22, 7, 12, 17, 22,
   5, 9, 14, 20, 5, 9, 14, 20, 5, 9, 14, 20, 5, 9, 14, 20,
   4, 11, 16, 23, 4, 11, 16, 23, 4, 11, 16, 23, 4, 11, 16, 23,
   6, 10, 15, 21, 6, 10, 15, 21, 6, 10, 15, 21, 6, 10, 15, 21]

def padMessage (msg : List Nat) : List Nat :=
  let bitLen := msg.length * 8
  let zeros := (119 - msg.length % 64) % 64
  msg ++ [0x80] ++ List.replicate zeros 0
      ++ (List.range 8).map (fun i => (bitLen >>> (8 * i)) % 256)

def chunkWord (chunk : List Nat) (j : Nat) : Nat :=
  chunk.getD (4 * j) 0
    + (chunk.getD (4 * j + 1) 0) * 256
    + (chunk.getD (4 * j + 2) 0) * 65536
    + (chunk.getD (4 * j + 3) 0) * 16777216

def compl32 (x : Nat) : Nat := x ^^^ 0xffffffff

def md5Round (chunk : List Nat) (st : Nat × Nat × Nat × Nat) (i : Nat) :
    Nat × Nat × Nat × Nat :=
  let (a, b, c, d) := st
  let (f, g) :=
    if i < 16 then ((b &&& c) ||| (compl32 b &&& d), i)
    else if i < 32 then ((d &&& b) ||| (compl32 d &&& c), (5 * i + 1) % 16)
    else if i < 48 then (b ^^^ c ^^^ d, (3 * i + 5) % 16)
    else (c ^^^ (b ||| compl32 d), (7 * i) % 16)
  let f := (f + a + md5K.getD i 0 + chunkWord chunk g) % M32
  (d, (b + rotl32 f (md5S.getD i 0)) % M32, b, c)

def md5Chunk (st : Nat × Nat × Nat × Nat) (chunk : List Nat) :
    Nat × Nat × Nat × Nat :=
  let (a0, b0, c0, d0) := st
  let (a, b, c, d) := (List.range 64).foldl (md5Round chunk) st
  ((a0 + a) % M32, (b0 + b) % M32, (c0 + c) % M32, (d0 + d) % M32)

def chunkify (l : List Nat) : List (List Nat) :=
  (List.range (l.length / 64)).map (fun i => (l.drop (64 * i)).take 64)

def wordLE (x : Nat) : List Nat :=
  [x % 256, (x >>> 8) % 256, (x >>> 16) % 256, (x >>> 24) % 256]

def md5Digest (msg : List Nat) : List Nat :=
  let (a, b, c, d) :=
    (chunkify (padMessage msg)).foldl md5Chunk
      (0x67452301, 0xefcdab89, 0x98badcfe, 0x10325476)
  wordLE a ++ wordLE b ++ wordLE c ++ wordLE d

def hexTable : List Char := "0123456789abcdef".data

def hexDigit (n : Nat) : Char := hexTable.getD (n % 16) '0'

def bytesToHexChars (bs : List Nat) : List Char :=
  bs.flatMap (fun b => [hexDigit (b / 16), hexDigit (b % 16)])

def utf8Bytes (c : Char) : List Nat :=
  let n := c.toNat
  if n < 0x80 then [n]
  else if n < 0x800 then
    [0xc0 ||| (n >>> 6), 0x80 ||| (n &&& 0x3f)]
  else if n < 0x10000 then
    [0xe0 ||| (n >>> 12), 0x80 ||| ((n >>> 6) &&& 0x3f), 0x80 ||| (n &&& 0x3f)]
  else
    [0xf0 ||| (n >>> 18), 0x80 ||| ((n >>> 12) &&& 0x3f),
     0x80 ||| ((n >>> 6) &&& 0x3f), 0x80 ||| (n &&& 0x3f)]

def strBytes (s : String) : List Nat := s.data.flatMap utf8Bytes

/-- Lowercase hexadecimal MD5 digest of the UTF-8 bytes of a string:
the value of `format "(:x)" (md5::compute (s.as_bytes ()))` in the source. -/
def md5Hex (s : String) : String :=
  String.mk (bytesToHexChars (md5Digest (strBytes s)))

theorem md5Hex_empty_vector :
    md5Hex "" = "d41d8cd98f00b204e9800998ecf8427e" := by decide

theorem md5Hex_abc_vector :
    md5Hex "abc" = "900150983cd24fb0d6963f7d28e17f72" := by decide

/-! ## Version comparison -/

/-- Lexicographic order on character sequences, as Rust's `PartialOrd`
for strings compares them (byte-wise, which for these ASCII version
strings is character-wise). -/
def strLt : List Char → List Char → Bool
  | [], [] => false
  | [], _ :: _ => true
  | _ :: _, [] => false
  | a :: as, b :: bs =>
    if a.toNat < b.toNat then true
    else if b.toNat < a.toNat then false
    else strLt as bs

/-- Modelled from the spec: the `Api` type lives in api.rs, which is not
among the sources; per sections 3 and 9 of the spec the source's
`api >= threshold.into()` compares the raw version strings
lexicographically. `apiGe a b` is the source's `a >= b`. -/
def apiGe (a b : String) : Bool := !(strLt a.data b.data)

def splitSegs (cs : List Char) : List (List Char) :=
  match cs with
  | [] => [[]]
  | c :: rest =>
    let r := splitSegs rest
    if c = '.' then [] :: r
    else
      match r with
      | [] => [[c]]
      | seg :: segs => (c :: seg) :: segs

def digitsToNat (cs : List Char) : Nat :=
  cs.foldl (fun acc c => acc * 10 + (c.toNat - 48)) 0

/-- The comparison the spec prescribes (its section 9): parse each
dot-separated segment of the version string as an integer. -/
def specSegments (s : String) : List Nat :=
  (splitSegs s.data).map digitsToNat

def segLt : List Nat → List Nat → Bool
  | [], [] => false
  | [], _ :: _ => true
  | _ :: _, [] => false
  | a :: as, b :: bs => if a < b then true else if b < a then false else segLt as bs

/-- The comparison the spec prescribes: numeric, segment by segment. -/
def specNumGe (a b : String) : Bool := !(segLt (specSegments a) (specSegments b))

/-! ## Authenticator (sunk.rs lines 12, 23-72) -/

/-- sunk.rs line 12: `const SALT_SIZE: usize = 36; // Minimum 6 characters.` -/
def SALT_SIZE : Nat := 36

/-- Modelled from the spec, section 9: the client name sent as the `c`
parameter is the build-time crate name constant; this crate is `sunk`. -/
def crate_name : String := "sunk"

structure SunkAuth where
  user : String
  password : String

/-- sunk.rs lines 44-45: `thread_rng().gen_ascii_chars().take(SALT_SIZE)`;
the random generator is modelled as a stream of characters indexed by
position. -/
def genSalt (rand : Nat → Char) : String :=
  String.mk ((List.range SALT_SIZE).map rand)

/-- sunk.rs lines 40-53: the `auth` local of `SunkAuth::as_uri` — the
version-gated user/token/salt (vs. user/password) query fragment. -/
def SunkAuth.authFragment (auth : SunkAuth) (api : String) (rand : Nat → Char) :
    String :=
  if apiGe api "1.13.0" then
    let salt := genSalt rand
    let pre_t := auth.password ++ salt
    let token := md5Hex pre_t
    "u=" ++ auth.user ++ "&t=" ++ token ++ "&s=" ++ salt
  else
    "u=" ++ auth.user ++ "&p=" ++ auth.password

/-- sunk.rs lines 56-60: the `format` local of `SunkAuth::as_uri`. -/
def chooseFormat (api : String) : String :=
  if apiGe api "1.14.0" then "json" else "xml"

/-- sunk.rs lines 38-71: `SunkAuth::as_uri`. -/
def SunkAuth.as_uri (auth : SunkAuth) (api : String) (rand : Nat → Char) :
    String :=
  auth.authFragment api rand ++ "&v=" ++ api ++ "&c=" ++ crate_name
    ++ "&f=" ++ chooseFormat api

/-! ## Errors, client construction and URL building -/

/-- Modelled from the spec (error.rs is not among the sources): the
`UriError` variants used at sunk.rs lines 80, 131 and 134. -/
inductive UriError where
  | hyper
  | scheme
  | address

/-- Modelled from the spec (error.rs is not among the sources): the error
variants used in sunk.rs — `Error::Uri`, `Error::ConnectionError`,
`Error::Api` (numeric code plus message, per section 7 of the spec),
`Error::HyperError` (the transport layer's own error, which also carries
the io error a failed JSON decode is converted into at sunk.rs
lines 177-180) and `Error::Other`. -/
inductive SunkError where
  | uri (e : UriError)
  | connectionError (status : Nat)
  | api (code : Nat) (message : String)
  | hyperError
  | other (msg : String)

/-- The parts of a parsed `hyper::Uri` that sunk.rs reads. -/
structure Uri where
  scheme : Option String
  authority : Option String

/-- The pure state of sunk.rs lines 14-21 (the reactor core and the
hyper client are runtime plumbing carrying no data the claims touch). -/
structure Sunk where
  url : Uri
  auth : SunkAuth
  api : String

/-- sunk.rs lines 75-97: `Sunk::new`. `parsedUrl` is the result of
`Uri::from_str` (`none` models a parse failure). The reactor and TLS
connector setup are environment effects whose failures also abort with
an error before any `Sunk` exists; they are not modelled. -/
def Sunk.new (parsedUrl : Option Uri) (user password : String) :
    Except SunkError Sunk :=
  match parsedUrl with
  | none => .error (.uri .hyper)
  | some uri => .ok (Sunk.mk uri (SunkAuth.mk user password) "1.14.0")

/-- sunk.rs lines 121-144: `Sunk::build_url`. `args` stands for
`args.to_string()` of the `Query` argument (query.rs is not among the
sources; the claims treat it as an opaque suffix). The `or_else`
at lines 127-130 substitutes `http` before the scheme error can fire. -/
def Sunk.build_url (s : Sunk) (query : String) (args : String)
    (rand : Nat → Char) : Except SunkError String :=
  let schemeOpt : Option String :=
    match s.url.scheme with
    | some sc => some sc
    | none => some "http"
  match schemeOpt with
  | none => .error (.uri .scheme)
  | some scheme =>
    match s.url.authority with
    | none => .error (.uri .address)
    | some addr =>
      .ok (scheme ++ "://" ++ addr ++ "/rest/" ++ query ++ "?"
        ++ s.auth.as_uri s.api rand ++ "&" ++ args)

/-! ## JSON values, as serde exposes them to sunk.rs -/

inductive Json where
  | null
  | bool (b : Bool)
  | num (n : Int)
  | str (s : String)
  | arr (elems : List Json)
  | obj (fields : List (String × Json))

def lookupField (k : String) : List (String × Json) → Option Json
  | [] => none
  | (k', v) :: rest => if k' = k then some v else lookupField k rest

/-- `Value::get` on a string key: `some` only on an object holding the key. -/
def Json.get (v : Json) (k : String) : Option Json :=
  match v with
  | .obj fields => lookupField k fields
  | _ => none

/-- String indexing `v["k"]`: null when absent or not an object. -/
def Json.index (v : Json) (k : String) : Json := (v.get k).getD .null

/-- Positional indexing `v[i]`: null when out of bounds or not an array. -/
def Json.indexNat (v : Json) (i : Nat) : Json :=
  match v with
  | .arr elems => elems.getD i .null
  | _ => .null

def Json.asStr : Json → Option String
  | .str s => some s
  | _ => none

def Json.asU64 : Json → Option Nat
  | .num n => if 0 ≤ n then some n.toNat else none
  | _ => none

/-! ## Request execution (sunk.rs lines 159-243) -/

/-- `StatusCode::is_success`: the 2xx range. -/
def isSuccess (status : Nat) : Bool := 200 ≤ status && status < 300

/-- Modelled from the spec (error.rs is not among the sources):
`ApiError::try_from(out)` at sunk.rs line 196 extracts the nested
`error.code` and `error.message` from the subsonic-response value,
yielding the numeric code and the message. -/
def apiErrorTryFrom (out : Json) : Except SunkError (Nat × String) :=
  match ((out.index "error").index "code").asU64,
        ((out.index "error").index "message").asStr with
  | some code, some message => .ok (code, message)
  | _, _ => .error (.other "malformed error object")

/-- Outcome of `Sunk::get`: a returned value, a returned error, or a
crash through a bare `panic` (sunk.rs lines 198 and 201). -/
inductive GetResult where
  | ok (v : Json)
  | err (e : SunkError)
  | panicked

/-- sunk.rs lines 172-205: the response-classification half of
`Sunk::get`. `decoded` is the outcome of `json::from_slice` on the body;
`none` models a decode failure, whose io error propagates out of
`core.run` (line 186) as a transport-layer error before the status code
is ever examined, so the status check at line 187 is reached only with a
decoded value in hand. -/
def handleResponse (status : Nat) (decoded : Option Json) : GetResult :=
  match decoded with
  | none => .err .hyperError
  | some res =>
    if isSuccess status then
      match res.get "subsonic-response" with
      | some out =>
        match (out.index "status").asStr with
        | some st =>
          if st = "ok" then .ok (out.indexNat 2)
          else if st = "failed" then
            match apiErrorTryFrom out with
            | .ok (code, message) => .err (.api code message)
            | .error e => .err e
          else .panicked
        | none => .panicked
      | none => .panicked
    else
      .err (.connectionError status)

/-- sunk.rs lines 159-206: `Sunk::get`, with the transport modelled by
the received `status` and the JSON-decode outcome `decoded`. -/
def Sunk.get (s : Sunk) (query args : String) (rand : Nat → Char)
    (status : Nat) (decoded : Option Json) : GetResult :=
  match s.build_url query args rand with
  | .error e => .err e
  | .ok _ => handleResponse status decoded

/-- sunk.rs lines 217-243: `Sunk::try_binary`. A body that fails to
decode as JSON yields the constructed URL as the success value; a body
that decodes yields `hyper::Error::Method`, surfaced as the hyper error
variant. -/
def Sunk.try_binary (s : Sunk) (query args : String) (rand : Nat → Char)
    (decoded : Option Json) : Except SunkError String :=
  match s.build_url query args rand with
  | .error e => .error e
  | .ok raw_uri =>
    match decoded with
    | none => .ok raw_uri
    | some _ => .error .hyperError

/-! ## Helper lemmas -/

theorem hexDigit_mem (n : Nat) : hexDigit n ∈ hexTable := by
  have h : n % 16 < hexTable.length := by
    have : n % 16 < 16 := Nat.mod_lt _ (by decide)
    simpa [hexTable] using this
  rw [hexDigit, List.getD_eq_getElem _ _ h]
  exact List.getElem_mem h

theorem md5Hex_chars (s : String) : ∀ c ∈ (md5Hex s).data, c ∈ hexTable := by
  intro c hc
  simp only [md5Hex, bytesToHexChars] at hc
  obtain ⟨b, _, hb⟩ := List.mem_flatMap.mp hc
  simp only [List.mem_cons, List.not_mem_nil, or_false] at hb
  rcases hb with hb | hb
  · exact hb ▸ hexDigit_mem _
  · exact hb ▸ hexDigit_mem _

theorem genSalt_length (rand : Nat → Char) : (genSalt rand).length = SALT_SIZE := by
  simp [genSalt, String.length]

/-- Concrete fixtures shared by the witnesses below. -/
def sampleRand : Nat → Char := fun _ => 'a'

def sampleUri : Uri := Uri.mk (some "https") (some "demo.example.org")

def sampleSunk : Sunk := Sunk.mk sampleUri (SunkAuth.mk "alice" "secret") "1.14.0"

def sampleUrl : String :=
  "https" ++ "://" ++ "demo.example.org" ++ "/rest/" ++ "ping" ++ "?"
    ++ SunkAuth.as_uri (SunkAuth.mk "alice" "secret") "1.14.0" sampleRand ++ "&" ++ ""

theorem sampleSunk_build_url :
    sampleSunk.build_url "ping" "" sampleRand = .ok sampleUrl := rfl

/-! ## Claims -/

/-- C1: for every credentials pair and every API version the source's
comparison puts at or above 1.13.0, the fragment built by
`SunkAuth::as_uri` carries a token parameter `t` equal to the lowercase
hex MD5 digest of the password concatenated with the emitted salt `s`,
and that salt is at least 6 characters long (it is exactly `SALT_SIZE`,
36). -/
theorem as_uri_token_auth (auth : SunkAuth) (api : String) (rand : Nat → Char)
    (h : apiGe api "1.13.0" = true) :
    SunkAuth.authFragment auth api rand
      = "u=" ++ auth.user ++ "&t=" ++ md5Hex (auth.password ++ genSalt rand)
        ++ "&s=" ++ genSalt rand
    ∧ SunkAuth.as_uri auth api rand
      = SunkAuth.authFragment auth api rand ++ "&v=" ++ api ++ "&c="
        ++ crate_name ++ "&f=" ++ chooseFormat api
    ∧ 6 ≤ (genSalt rand).length
    ∧ ∀ c ∈ (md5Hex (auth.password ++ genSalt rand)).data, c ∈ hexTable := by
  refine ⟨?_, rfl, ?_, md5Hex_chars _⟩
  · simp [SunkAuth.authFragment, h]
  · rw [genSalt_length]
    decide

theorem as_uri_token_auth_witness :
    apiGe "1.13.0" "1.13.0" = true
    ∧ SunkAuth.authFragment (SunkAuth.mk "alice" "secret") "1.13.0" sampleRand
        = "u=" ++ "alice" ++ "&t=" ++ md5Hex ("secret" ++ genSalt sampleRand)
          ++ "&s=" ++ genSalt sampleRand
    ∧ 6 ≤ (genSalt sampleRand).length :=
  ⟨by decide,
   (as_uri_token_auth (SunkAuth.mk "alice" "secret") "1.13.0" sampleRand
      (by decide)).1,
   (as_uri_token_auth (SunkAuth.mk "alice" "secret") "1.13.0" sampleRand
      (by decide)).2.2.1⟩

/-- C2: the claim says the version comparison that selects the auth
scheme and the response format is numeric per dot-separated segment.
The source's comparison (raw-string, lexicographic — sunk.rs line 40,
with its own `TODO Actual version comparison support` at line 37) is
not: it rules 1.10.0 below 1.9.0 where the numeric comparison rules it
above, and it rules 1.9.0 at-or-above the 1.13.0 auth threshold where
the numeric comparison rules it below. -/
theorem version_compare_lexicographic_bug :
    apiGe "1.10.0" "1.9.0" = false
    ∧ specNumGe "1.10.0" "1.9.0" = true
    ∧ specSegments "1.10.0" = [1, 10, 0]
    ∧ specSegments "1.9.0" = [1, 9, 0]
    ∧ apiGe "1.9.0" "1.13.0" = true
    ∧ specNumGe "1.9.0" "1.13.0" = false := by decide

/-- C3: the claim says that for a 2xx response whose body is valid JSON,
a missing `subsonic-response` object, or a missing `status` field, or a
`status` other than ok/failed, yields a distinct typed error and never
an unchecked crash. The source instead reaches a bare `panic` in all
three situations (sunk.rs lines 198 and 201), evaluated here on HTTP 200
with bodies lacking the object, carrying a foreign status value, and
lacking the status field. -/
theorem get_panics_on_protocol_violation :
    Sunk.get sampleSunk "ping" "" sampleRand 200 (some (Json.obj []))
      = GetResult.panicked
    ∧ Sunk.get sampleSunk "ping" "" sampleRand 200
        (some (Json.obj [("subsonic-response",
           Json.obj [("status", Json.str "weird")])]))
      = GetResult.panicked
    ∧ Sunk.get sampleSunk "ping" "" sampleRand 200
        (some (Json.obj [("subsonic-response", Json.obj [])]))
      = GetResult.panicked :=
  ⟨rfl, rfl, rfl⟩

/-- C4 counterexample: the claim says a non-success HTTP status yields
`TransportFailure`/`ConnectionError` with that status regardless of the
body, in particular for a non-JSON body. But `Sunk::get` decodes the
body as JSON inside the transport future (sunk.rs lines 176-182) before
the status check at line 187, so a 404 with a non-JSON body surfaces the
decode failure as a transport-layer error, not `ConnectionError 404`. -/
theorem get_404_nonjson_counterexample :
    Sunk.get sampleSunk "ping" "" sampleRand 404 none
      ≠ GetResult.err (SunkError.connectionError 404) := by
  intro h
  have h2 : GetResult.err SunkError.hyperError
      = GetResult.err (SunkError.connectionError 404) := h
  injection h2 with h3
  exact SunkError.noConfusion h3

/-- C4 (amended): for every response whose HTTP status is not a success
code and whose body does decode as JSON, `Sunk::get` returns the
connection error carrying that status, whatever JSON value the body
held; a body that fails to decode instead surfaces the decode failure. -/
theorem get_transport_failure (s : Sunk) (query args : String)
    (rand : Nat → Char) (u : String) (status : Nat) (res : Json)
    (hb : s.build_url query args rand = .ok u)
    (hs : isSuccess status = false) :
    Sunk.get s query args rand status (some res)
      = GetResult.err (SunkError.connectionError status) := by
  simp [Sunk.get, hb, handleResponse, hs]

theorem get_transport_failure_witness :
    Sunk.get sampleSunk "ping" "" sampleRand 404 (some Json.null)
      = GetResult.err (SunkError.connectionError 404) :=
  get_transport_failure sampleSunk "ping" "" sampleRand sampleUrl 404 Json.null
    rfl (by decide)

/-- C5: for every 2xx response whose JSON body holds a
`subsonic-response` object with status `failed`, `Sunk::get` extracts
the nested `error.code` and `error.message` and returns the API failure
carrying exactly that code and message. -/
theorem get_api_failure (s : Sunk) (query args : String) (rand : Nat → Char)
    (u : String) (status : Nat) (res out : Json) (code : Nat) (message : String)
    (hb : s.build_url query args rand = .ok u)
    (hs : isSuccess status = true)
    (hsub : res.get "subsonic-response" = some out)
    (hst : (out.index "status").asStr = some "failed")
    (hcode : ((out.index "error").index "code").asU64 = some code)
    (hmsg : ((out.index "error").index "message").asStr = some message) :
    Sunk.get s query args rand status (some res)
      = GetResult.err (SunkError.api code message) := by
  simp [Sunk.get, hb, handleResponse, hs, hsub, hst, apiErrorTryFrom, hcode, hmsg]

def failedInner : Json :=
  Json.obj [("status", Json.str "failed"),
            ("error", Json.obj [("code", Json.num 40),
                                ("message", Json.str "Wrong username or password.")])]

def failedBody : Json := Json.obj [("subsonic-response", failedInner)]

theorem get_api_failure_witness :
    Sunk.get sampleSunk "ping" "" sampleRand 200 (some failedBody)
      = GetResult.err (SunkError.api 40 "Wrong username or password.") :=
  get_api_failure sampleSunk "ping" "" sampleRand sampleUrl 200 failedBody
    failedInner 40 "Wrong username or password." rfl (by decide) rfl rfl rfl rfl

/-- C6: for every credentials pair and every API version, the string
`SunkAuth::as_uri` emits ends with an `f=` parameter whose value is the
chosen format, and that format is `json` exactly when the source's
comparison puts the version at or above 1.14.0 (and `xml` otherwise). -/
theorem format_json_iff (auth : SunkAuth) (api : String) (rand : Nat → Char) :
    SunkAuth.as_uri auth api rand
      = SunkAuth.authFragment auth api rand ++ "&v=" ++ api ++ "&c="
        ++ crate_name ++ "&f=" ++ chooseFormat api
    ∧ (chooseFormat api = "json" ↔ apiGe api "1.14.0" = true)
    ∧ (chooseFormat api = "xml" ↔ apiGe api "1.14.0" = false) := by
  refine ⟨rfl, ?_, ?_⟩ <;> cases h : apiGe api "1.14.0" <;> simp [chooseFormat, h]

/-- C7: for every credentials pair and every API version the source's
comparison puts strictly below 1.13.0, the auth fragment built by
`SunkAuth::as_uri` is exactly the plaintext `u=<user>&p=<password>`,
and the full emitted string is that fragment followed by the v/c/f
parameters. -/
theorem plaintext_auth_below_1130 (auth : SunkAuth) (api : String)
    (rand : Nat → Char) (h : apiGe api "1.13.0" = false) :
    SunkAuth.authFragment auth api rand = "u=" ++ auth.user ++ "&p=" ++ auth.password
    ∧ SunkAuth.as_uri auth api rand
      = SunkAuth.authFragment auth api rand ++ "&v=" ++ api ++ "&c="
        ++ crate_name ++ "&f=" ++ chooseFormat api := by
  refine ⟨?_, rfl⟩
  simp [SunkAuth.authFragment, h]

theorem plaintext_auth_below_1130_witness :
    apiGe "1.12.0" "1.13.0" = false
    ∧ SunkAuth.authFragment (SunkAuth.mk "alice" "secret") "1.12.0" sampleRand
        = "u=" ++ "alice" ++ "&p=" ++ "secret" :=
  ⟨by decide,
   (plaintext_auth_below_1130 (SunkAuth.mk "alice" "secret") "1.12.0" sampleRand
      (by decide)).1⟩

/-- C8: `Sunk::build_url` fails with the address `UriError` exactly when
the base URI lacks an authority; when only the scheme is missing it
falls back to `http` and succeeds, and no input ever produces the
scheme `UriError`. -/
theorem build_url_uri_errors (s : Sunk) (query args : String)
    (rand : Nat → Char) :
    s.build_url query args rand ≠ .error (.uri .scheme)
    ∧ (s.url.authority = none →
        s.build_url query args rand = .error (.uri .address))
    ∧ (∀ addr, s.url.authority = some addr → s.url.scheme = none →
        s.build_url query args rand
          = .ok ("http" ++ "://" ++ addr ++ "/rest/" ++ query ++ "?"
              ++ s.auth.as_uri s.api rand ++ "&" ++ args)) := by
  cases hsch : s.url.scheme <;> cases hauth : s.url.authority <;>
    simp [Sunk.build_url, hsch, hauth]

def schemelessSunk : Sunk :=
  Sunk.mk (Uri.mk none (some "demo.example.org"))
    (SunkAuth.mk "alice" "secret") "1.14.0"

def noAuthoritySunk : Sunk :=
  Sunk.mk (Uri.mk (some "https") none) (SunkAuth.mk "alice" "secret") "1.14.0"

theorem build_url_uri_errors_witness :
    noAuthoritySunk.build_url "ping" "" sampleRand
      = .error (.uri .address)
    ∧ schemelessSunk.build_url "ping" "" sampleRand
      = .ok ("http" ++ "://" ++ "demo.example.org" ++ "/rest/" ++ "ping" ++ "?"
          ++ SunkAuth.as_uri (SunkAuth.mk "alice" "secret") "1.14.0" sampleRand
          ++ "&" ++ "") :=
  ⟨(build_url_uri_errors noAuthoritySunk "ping" "" sampleRand).2.1 rfl,
   (build_url_uri_errors schemelessSunk "ping" "" sampleRand).2.2
     "demo.example.org" rfl rfl⟩

/-- C9: whenever `Sunk::build_url` produced a URL, `Sunk::try_binary`
returns that constructed, attempted URL as its success value when the
response body fails to decode as JSON, and returns an error (the
transport error wrapping `hyper::Error::Method`) when the body is valid
JSON. -/
theorem try_binary_probe (s : Sunk) (query args : String) (rand : Nat → Char)
    (u : String) (hb : s.build_url query args rand = .ok u) :
    s.try_binary query args rand none = .ok u
    ∧ ∀ v, s.try_binary query args rand (some v) = .error SunkError.hyperError := by
  constructor
  · simp [Sunk.try_binary, hb]
  · intro v
    simp [Sunk.try_binary, hb]

theorem try_binary_probe_witness :
    sampleSunk.try_binary "ping" "" sampleRand none = .ok sampleUrl
    ∧ sampleSunk.try_binary "ping" "" sampleRand (some Json.null)
      = .error SunkError.hyperError :=
  ⟨(try_binary_probe sampleSunk "ping" "" sampleRand sampleUrl rfl).1,
   (try_binary_probe sampleSunk "ping" "" sampleRand sampleUrl rfl).2 Json.null⟩

/-- C10: every client `Sunk::new` yields has its API version fixed at
1.14.0 (no operation of the embedding writes it), its auth fragment for
that version always takes the salted-token branch with format `json`
(never the plaintext or `xml` branches), and every URL `build_url`
constructs embeds exactly that fragment. -/
theorem new_fixed_api_token_json (parsed : Option Uri) (user password : String)
    (s : Sunk) (h : Sunk.new parsed user password = .ok s) :
    s.api = "1.14.0"
    ∧ s.auth = SunkAuth.mk user password
    ∧ (∀ rand, SunkAuth.as_uri s.auth s.api rand
        = "u=" ++ user ++ "&t=" ++ md5Hex (password ++ genSalt rand)
          ++ "&s=" ++ genSalt rand ++ "&v=" ++ "1.14.0" ++ "&c=" ++ crate_name
          ++ "&f=" ++ "json")
    ∧ ∀ (query args : String) (rand : Nat → Char) (addr : String),
        s.url.authority = some addr →
        ∃ sch, s.build_url query args rand
          = .ok (sch ++ "://" ++ addr ++ "/rest/" ++ query ++ "?"
              ++ SunkAuth.as_uri s.auth s.api rand ++ "&" ++ args) := by
  cases parsed with
  | none => exact absurd h (by simp [Sunk.new])
  | some uri =>
    obtain ⟨usch, uauth⟩ := uri
    have hs : s = Sunk.mk (Uri.mk usch uauth) (SunkAuth.mk user password)
        "1.14.0" := by
      simpa [Sunk.new] using h.symm
    subst hs
    refine ⟨rfl, rfl, ?_, ?_⟩
    · intro rand
      have h13 : apiGe "1.14.0" "1.13.0" = true := by decide
      have h14 : apiGe "1.14.0" "1.14.0" = true := by decide
      simp [SunkAuth.as_uri, SunkAuth.authFragment, chooseFormat, crate_name,
        h13, h14]
    · intro query args rand addr hauth
      have hauth2 : uauth = some addr := hauth
      subst hauth2
      cases usch with
      | none => exact ⟨"http", rfl⟩
      | some sc => exact ⟨sc, rfl⟩

theorem new_fixed_api_token_json_witness :
    sampleSunk.api = "1.14.0"
    ∧ SunkAuth.as_uri sampleSunk.auth sampleSunk.api sampleRand
      = "u=" ++ "alice" ++ "&t=" ++ md5Hex ("secret" ++ genSalt sampleRand)
        ++ "&s=" ++ genSalt sampleRand ++ "&v=" ++ "1.14.0" ++ "&c="
        ++ crate_name ++ "&f=" ++ "json"
    ∧ ∃ sch, sampleSunk.build_url "ping" "" sampleRand
      = .ok (sch ++ "://" ++ "demo.example.org" ++ "/rest/" ++ "ping" ++ "?"
          ++ SunkAuth.as_uri sampleSunk.auth sampleSunk.api sampleRand
          ++ "&" ++ "") :=
  ⟨(new_fixed_api_token_json (some sampleUri) "alice" "secret" sampleSunk rfl).1,
   (new_fixed_api_token_json (some sampleUri) "alice" "secret" sampleSunk rfl).2.2.1
     sampleRand,
   (new_fixed_api_token_json (some sampleUri) "alice" "secret" sampleSunk rfl).2.2.2
     "ping" "" sampleRand "demo.example.org" rfl⟩
